import Mathlib

/-!
# Batch adsorption simulator: a shallow embedding

A shallow embedding, over exact rationals, of the batch adsorption
simulator in `src/Batch1.py`.  The script fixes two volumes, reads five
parameters from bounded slider widgets, defines the Langmuir kinetic
derivative function `langmuir_odes`, builds the sampling grid
`np.linspace(0, t_end, 300)`, calls `solve_ivp`, and then unpacks and
displays `sol.t`, `sol.y` without inspecting the solver status.

Real-number arithmetic of the source is embedded as `ℚ`; the external
ODE solver is treated as a function-valued argument of the script, so
that the script's own handling of its result can be stated exactly.
-/

namespace BatchAdsorption

/-- The fixed resin volume (mL): `V_resin = 0.35` in the source. -/
def V_resin : ℚ := 0.35

/-- The fixed solution volume (mL): `V_solution = 5.0` in the source. -/
def V_solution : ℚ := 5.0

/-- The parameters the script reads from its sidebar sliders. -/
structure Params where
  c0 : ℚ
  k : ℚ
  KL : ℚ
  qmax : ℚ
  t_end : ℚ

/-- The derivative function `langmuir_odes(t, y)` of the source, with the
slider-bound globals `k`, `qmax`, `KL` made explicit as `p` and the state
list `y = [C, q]` as a pair.  The returned pair is `(dCdt, dqdt)`, in the
order of the returned list `[dCdt, dqdt]`. -/
def langmuir_odes (p : Params) (t : ℚ) (y : ℚ × ℚ) : ℚ × ℚ :=
  let C := y.1
  let q := y.2
  let dqdt := p.k * ((p.qmax * C) / (p.KL + C) - q)
  let dCdt := - (V_resin / V_solution) * dqdt
  (dCdt, dqdt)

/-- The Langmuir equilibrium loading `qmax*C/(KL + C)` appearing inside
`langmuir_odes`. -/
def qeq (p : Params) (C : ℚ) : ℚ := (p.qmax * C) / (p.KL + C)

/-- One explicit Euler step of size `h` driven by `langmuir_odes`: the
generic discrete advance any one-step integrator makes from the returned
derivative pair. -/
def eulerStep (p : Params) (h : ℚ) (y : ℚ × ℚ) : ℚ × ℚ :=
  let d := langmuir_odes p 0 y
  (y.1 + h * d.1, y.2 + h * d.2)

/-- The explicit Euler trajectory from `y0` with step `h`. -/
def eulerTraj (p : Params) (h : ℚ) (y0 : ℚ × ℚ) : ℕ → ℚ × ℚ
  | 0 => y0
  | n + 1 => eulerStep p h (eulerTraj p h y0 n)

/-- A state is stationary when the derivative function vanishes. -/
def stationary (p : Params) (y : ℚ × ℚ) : Prop :=
  langmuir_odes p 0 y = (0, 0)

/-- The grid `np.linspace(a, b, n)`: `n` evenly spaced points from `a`
to `b`, endpoints included. -/
def linspace (a b : ℚ) (n : ℕ) : List ℚ :=
  (List.range n).map (fun i : ℕ => a + (b - a) * (i : ℚ) / ((n : ℚ) - 1))

/-- The sampling grid `t_eval = np.linspace(0, t_end, 300)` of the source. -/
def t_eval (tEnd : ℚ) : List ℚ := linspace 0 tEnd 300

/-- The raw values a user aims the five sliders at, before the widgets
constrain them to their ranges. -/
structure RawInputs where
  c0 : ℚ
  k : ℚ
  KL : ℚ
  qmax : ℚ
  t_end : ℚ

/-- A slider widget with bounds `lo` and `hi`: the value it can yield for
a requested position `v` is `v` constrained into `[lo, hi]`; an
out-of-range request stops at the nearer bound.  No error path exists. -/
def slider (lo hi v : ℚ) : ℚ := max lo (min hi v)

/-- The parameter acquisition of the source (lines 37–41): five sliders
with the fixed bounds of the script.  Total: it always yields a
`Params`. -/
def readParams (r : RawInputs) : Params :=
  { c0 := slider 1 50 r.c0
    k := slider 0.01 5 r.k
    KL := slider 0.5 100 r.KL
    qmax := slider 10 200 r.qmax
    t_end := slider 5 30 r.t_end }

/-- The shape of what `solve_ivp` returns, as the script consumes it:
a success flag and the arrays `sol.t`, `sol.y[0]`, `sol.y[1]`. -/
structure OdeResult where
  success : Bool
  ts : List ℚ
  Cs : List ℚ
  qs : List ℚ
deriving DecidableEq

/-- The script's single integration call (line 52): build the grid from
the slider-read parameters and hand it to the solver.  The external
solver is a function argument. -/
def runScript (solve : Params → List ℚ → OdeResult) (r : RawInputs) : OdeResult :=
  let p := readParams r
  solve p (t_eval p.t_end)

/-- The script's unpacking `t, C, q = sol.t, sol.y[0], sol.y[1]`
(line 53): unconditional, with no look at `sol.success`. -/
def extractSeries (sol : OdeResult) : List ℚ × List ℚ × List ℚ :=
  (sol.ts, sol.Cs, sol.qs)

/-- The whole pipeline from raw slider requests to the series the script
plots and displays. -/
def runPipeline (solve : Params → List ℚ → OdeResult) (r : RawInputs) :
    List ℚ × List ℚ × List ℚ :=
  extractSeries (runScript solve r)

/-- A solver stub that reports failure and partial arrays, standing for a
`solve_ivp` run that did not converge. -/
def failingSolver : Params → List ℚ → OdeResult :=
  fun _ _ => ⟨false, [0], [20], [0]⟩

/-- Modelled from the spec: the repository's variant-B kinetic model (the
LDF/porosity near-duplicate script the spec describes alongside
`Batch1.py`) is not present under `src/`.  Its parameters per the spec:
rate constant `Ka`, true Langmuir affinity `KL`, capacity `qmax`,
porosity `eps`, horizon `t_end`. -/
structure ParamsB where
  c0 : ℚ
  Ka : ℚ
  KL : ℚ
  qmax : ℚ
  eps : ℚ
  t_end : ℚ

/-- Modelled from the spec: the variant-B derivative function,
`dq/dt = Ka·(qmax·KL·c/(1 + KL·c) − q)` and
`dc/dt = −((1 − eps)/eps)·dq/dt`, returned as `(dcdt, dqdt)`. -/
def ldf_odes (p : ParamsB) (t : ℚ) (y : ℚ × ℚ) : ℚ × ℚ :=
  let c := y.1
  let q := y.2
  let dqdt := p.Ka * ((p.qmax * p.KL * c) / (1 + p.KL * c) - q)
  let dcdt := - ((1 - p.eps) / p.eps) * dqdt
  (dcdt, dqdt)

/-- Modelled from the spec: the variant-B derived quantity
`mass_bound(t) = q(t)·(1 − eps)`. -/
def mass_bound (p : ParamsB) (q : ℚ) : ℚ := q * (1 - p.eps)

/-- Modelled from the spec: the per-sample bound-mass column of the
variant-B result series, one entry per sampled loading. -/
def massBoundSeries (p : ParamsB) (qs : List ℚ) : List ℚ :=
  qs.map (fun q => mass_bound p q)

/-- The part of the state space the run started at `(c0, 0)` can visit:
states on the conservation line `C + (V_resin/V_solution)·q = c0` (kept
exactly by the coupling, see `C2_mass_conservation`), with nonnegative
coordinates, at or below the equilibrium curve `q = qeq(C)`.  The
trajectory cannot cross that curve from below, since every point of it
is stationary for `langmuir_odes`. -/
def reachable (p : Params) (y : ℚ × ℚ) : Prop :=
  y.1 + (V_resin / V_solution) * y.2 = p.c0 ∧
  0 ≤ y.1 ∧ 0 ≤ y.2 ∧ y.2 ≤ qeq p y.1

end BatchAdsorption

namespace BatchAdsorption

theorem t_eval_length (tEnd : ℚ) : (t_eval tEnd).length = 300 := by
  rw [t_eval, linspace, List.length_map, List.length_range]

theorem t_eval_len_pos (tEnd : ℚ) : 0 < (t_eval tEnd).length := by
  rw [t_eval_length]
  norm_num

theorem t_eval_len_299 (tEnd : ℚ) : 299 < (t_eval tEnd).length := by
  rw [t_eval_length]
  norm_num

theorem t_eval_get (tEnd : ℚ) (i : ℕ) (hi : i < (t_eval tEnd).length) :
    (t_eval tEnd).get ⟨i, hi⟩ = tEnd * i / 299 := by
  simp only [t_eval, linspace, List.get_eq_getElem, List.getElem_map,
    List.getElem_range]
  norm_num

/-- C1: for every state `(C, q)` with `KL + C ≠ 0`, `langmuir_odes`
returns `dq/dt = k·(qmax·C/(KL + C) − q)` and
`dC/dt = −(V_resin/V_solution)·dq/dt`. -/
theorem C1_variantA_derivative (p : Params) (t C q : ℚ)
    (h : p.KL + C ≠ 0) :
    (langmuir_odes p t (C, q)).2 = p.k * (p.qmax * C / (p.KL + C) - q) ∧
    (langmuir_odes p t (C, q)).1 =
      - (V_resin / V_solution) * (langmuir_odes p t (C, q)).2 := by
  exact ⟨rfl, rfl⟩

/-- Witness for C1 at the script's default parameters and initial state. -/
theorem C1_witness :
    ((10 : ℚ) + 20 ≠ 0) ∧
    ((langmuir_odes ⟨20, 1, 10, 65, 20⟩ 0 (20, 0)).2 =
        (1 : ℚ) * (65 * 20 / (10 + 20) - 0) ∧
      (langmuir_odes ⟨20, 1, 10, 65, 20⟩ 0 (20, 0)).1 =
        - (V_resin / V_solution) * (langmuir_odes ⟨20, 1, 10, 65, 20⟩ 0 (20, 0)).2) :=
  ⟨by norm_num, C1_variantA_derivative ⟨20, 1, 10, 65, 20⟩ 0 20 0 (by norm_num)⟩

/-- C2: `V_solution·dC/dt + V_resin·dq/dt = 0` at every state, so one
explicit advance by the returned derivatives leaves
`C·V_solution + q·V_resin` exactly unchanged: the invariant holds by
construction along any trajectory the derivative field generates from
`(C0, 0)`. -/
theorem C2_mass_conservation (p : Params) (t C q : ℚ) :
    V_solution * (langmuir_odes p t (C, q)).1 +
      V_resin * (langmuir_odes p t (C, q)).2 = 0 ∧
    ∀ h : ℚ, (eulerStep p h (C, q)).1 * V_solution + (eulerStep p h (C, q)).2 * V_resin =
      C * V_solution + q * V_resin := by
  constructor
  · show V_solution * (- (V_resin / V_solution) * (p.k * ((p.qmax * C) / (p.KL + C) - q))) +
        V_resin * (p.k * ((p.qmax * C) / (p.KL + C) - q)) = 0
    rw [V_resin, V_solution]
    ring
  · intro h
    show (C + h * (- (V_resin / V_solution) * (p.k * ((p.qmax * C) / (p.KL + C) - q)))) *
          V_solution +
        (q + h * (p.k * ((p.qmax * C) / (p.KL + C) - q))) * V_resin =
      C * V_solution + q * V_resin
    rw [V_resin, V_solution]
    ring

/-- C10: the volumes are the fixed constants `0.35` and `5.0`, their
ratio is `0.07`, and the liquid-phase derivative is `−0.07` times the
solid-phase derivative at every state for every parameter set. -/
theorem C10_fixed_volumes (p : Params) (t : ℚ) (y : ℚ × ℚ) :
    V_resin = 35 / 100 ∧ V_solution = 5 ∧ V_resin / V_solution = 7 / 100 ∧
    (langmuir_odes p t y).1 = - (7 / 100) * (langmuir_odes p t y).2 := by
  refine ⟨by norm_num [V_resin], by norm_num [V_solution],
    by norm_num [V_resin, V_solution], ?_⟩
  show - (V_resin / V_solution) * (p.k * ((p.qmax * y.1) / (p.KL + y.1) - y.2)) =
    - (7 / 100) * (p.k * ((p.qmax * y.1) / (p.KL + y.1) - y.2))
  have hr : V_resin / V_solution = 7 / 100 := by norm_num [V_resin, V_solution]
  rw [hr]

/-- C3 counterexample: at the raw request `t_end = 0` (violating
`t_end > 0`), parameter acquisition does not fail — the slider silently
clamps `t_end` to `5` — and the solver is still invoked on the clamped
parameters, so no `ValidationError` precedes integration. -/
theorem C3_counterexample :
    (readParams ⟨20, 1, 10, 65, 0⟩).t_end = 5 ∧
    runScript (fun _ ts => ⟨true, ts, [], []⟩) ⟨20, 1, 10, 65, 0⟩ =
      ⟨true, t_eval 5, [], []⟩ := by
  have h : (readParams ⟨20, 1, 10, 65, 0⟩).t_end = 5 := by
    show max 5 (min 30 0) = 5
    norm_num
  refine ⟨h, ?_⟩
  show (⟨true, t_eval (readParams ⟨20, 1, 10, 65, 0⟩).t_end, [], []⟩ : OdeResult) =
    ⟨true, t_eval 5, [], []⟩
  rw [h]

/-- C3 amended: the program never raises a `ValidationError`; instead its
sliders constrain every raw request into fixed in-range bounds, so the
parameters handed to the kernel always satisfy the §3 domain constraints,
and the solver call is made on every input. -/
theorem C3_sliders_clamp (r : RawInputs) (solve : Params → List ℚ → OdeResult) :
    1 ≤ (readParams r).c0 ∧ (readParams r).c0 ≤ 50 ∧
    0 < (readParams r).k ∧ 0 < (readParams r).KL ∧ 0 < (readParams r).qmax ∧
    5 ≤ (readParams r).t_end ∧ (readParams r).t_end ≤ 30 ∧
    runScript solve r = solve (readParams r) (t_eval (readParams r).t_end) := by
  refine ⟨le_max_left _ _, ?_, ?_, ?_, ?_, le_max_left _ _, ?_, rfl⟩
  · exact max_le (by norm_num) (min_le_left _ _)
  · show (0 : ℚ) < max 0.01 (min 5 r.k)
    exact lt_of_lt_of_le (by norm_num) (le_max_left _ _)
  · show (0 : ℚ) < max 0.5 (min 100 r.KL)
    exact lt_of_lt_of_le (by norm_num) (le_max_left _ _)
  · show (0 : ℚ) < max 10 (min 200 r.qmax)
    exact lt_of_lt_of_le (by norm_num) (le_max_left _ _)
  · exact max_le (by norm_num) (min_le_left _ _)

/-- C4 counterexample: when the solver reports failure with partial
arrays, the script still returns those arrays as the result series —
nothing distinguishable is propagated (the pipeline's codomain has no
failure variant at all). -/
theorem C4_counterexample :
    (runScript failingSolver ⟨20, 1, 10, 65, 20⟩).success = false ∧
    runPipeline failingSolver ⟨20, 1, 10, 65, 20⟩ = ([0], [20], [0]) :=
  ⟨rfl, rfl⟩

/-- C4 amended: the script never inspects `sol.success`; it
unconditionally unpacks `sol.t`, `sol.y[0]`, `sol.y[1]`, so its output
is the solver's arrays regardless of status, and replacing the status
flag changes nothing downstream. -/
theorem C4_no_status_check (solve : Params → List ℚ → OdeResult) (r : RawInputs) :
    runPipeline solve r =
      ((runScript solve r).ts, (runScript solve r).Cs, (runScript solve r).qs) ∧
    ∀ sol : OdeResult, extractSeries sol = extractSeries { sol with success := true } :=
  ⟨rfl, fun _ => rfl⟩

/-- C5: for `t_end > 0` the grid `t_eval` has exactly 300 entries, is
evenly spaced with step `t_end/299`, strictly increasing, starts at `0`
and ends at `t_end`. -/
theorem C5_sampling_grid (tEnd : ℚ) (hpos : 0 < tEnd) :
    (t_eval tEnd).length = 300 ∧
    (∀ (i : ℕ) (hi : i < (t_eval tEnd).length) (hi1 : i + 1 < (t_eval tEnd).length),
      (t_eval tEnd).get ⟨i + 1, hi1⟩ - (t_eval tEnd).get ⟨i, hi⟩ = tEnd / 299) ∧
    (∀ (i j : ℕ) (hi : i < (t_eval tEnd).length) (hj : j < (t_eval tEnd).length),
      i < j → (t_eval tEnd).get ⟨i, hi⟩ < (t_eval tEnd).get ⟨j, hj⟩) ∧
    (t_eval tEnd).get ⟨0, t_eval_len_pos tEnd⟩ = 0 ∧
    (t_eval tEnd).get ⟨299, t_eval_len_299 tEnd⟩ = tEnd := by
  refine ⟨t_eval_length tEnd, ?_, ?_, ?_, ?_⟩
  · intro i hi hi1
    rw [t_eval_get, t_eval_get]
    push_cast
    ring
  · intro i j hi hj hij
    rw [t_eval_get, t_eval_get]
    have h1 : tEnd * (i : ℚ) < tEnd * (j : ℚ) :=
      mul_lt_mul_of_pos_left (by exact_mod_cast hij) hpos
    exact (div_lt_div_iff_of_pos_right (by norm_num)).mpr h1
  · rw [t_eval_get]
    norm_num
  · rw [t_eval_get]
    norm_num

/-- Witness for C5 at the default horizon `t_end = 20`. -/
theorem C5_witness :
    (0 : ℚ) < 20 ∧
    ((t_eval 20).length = 300 ∧
    (∀ (i : ℕ) (hi : i < (t_eval 20).length) (hi1 : i + 1 < (t_eval 20).length),
      (t_eval 20).get ⟨i + 1, hi1⟩ - (t_eval 20).get ⟨i, hi⟩ = 20 / 299) ∧
    (∀ (i j : ℕ) (hi : i < (t_eval 20).length) (hj : j < (t_eval 20).length),
      i < j → (t_eval 20).get ⟨i, hi⟩ < (t_eval 20).get ⟨j, hj⟩) ∧
    (t_eval 20).get ⟨0, t_eval_len_pos 20⟩ = 0 ∧
    (t_eval 20).get ⟨299, t_eval_len_299 20⟩ = 20) :=
  ⟨by norm_num, C5_sampling_grid 20 (by norm_num)⟩

/-- C6: with `KL > 0`, the origin `(0, 0)` is a fixed point of
`langmuir_odes`, and the discrete trajectory driven by its derivatives
from `(0, 0)` stays there for every step size and step count: the run
with `C0 = 0` is identically zero. -/
theorem C6_zero_fixed_point (p : Params) (t : ℚ) (hKL : 0 < p.KL) :
    langmuir_odes p t (0, 0) = (0, 0) ∧
    ∀ (h : ℚ) (n : ℕ), eulerTraj p h (0, 0) n = (0, 0) := by
  have hfix : ∀ s : ℚ, langmuir_odes p s (0, 0) = (0, 0) := by
    intro s
    show (- (V_resin / V_solution) * (p.k * ((p.qmax * 0) / (p.KL + 0) - 0)),
      p.k * ((p.qmax * 0) / (p.KL + 0) - 0)) = (0, 0)
    norm_num
  refine ⟨hfix t, ?_⟩
  intro h n
  induction n with
  | zero => rfl
  | succ n ih =>
    show eulerStep p h (eulerTraj p h (0, 0) n) = (0, 0)
    rw [ih]
    show ((0 : ℚ) + h * (langmuir_odes p 0 (0, 0)).1,
      (0 : ℚ) + h * (langmuir_odes p 0 (0, 0)).2) = (0, 0)
    rw [hfix 0]
    norm_num

/-- Witness for C6 at the default parameters. -/
theorem C6_witness :
    (0 : ℚ) < 10 ∧
    (langmuir_odes ⟨20, 1, 10, 65, 20⟩ 0 (0, 0) = (0, 0) ∧
    ∀ (h : ℚ) (n : ℕ), eulerTraj ⟨20, 1, 10, 65, 20⟩ h (0, 0) n = (0, 0)) :=
  ⟨by norm_num, C6_zero_fixed_point ⟨20, 1, 10, 65, 20⟩ 0 (by norm_num)⟩

/-- C7: the initial state `(c0, 0)` is reachable, and at every reachable
state the derivative function gives `dq/dt ≥ 0` and `dC/dt ≤ 0`: the
loading never decreases and the concentration never increases along the
run. -/
theorem C7_monotone_derivatives (p : Params) (hk : 0 < p.k) (hKL : 0 < p.KL)
    (hq : 0 < p.qmax) (hc : 0 < p.c0) :
    reachable p (p.c0, 0) ∧
    ∀ y : ℚ × ℚ, reachable p y →
      0 ≤ (langmuir_odes p 0 y).2 ∧ (langmuir_odes p 0 y).1 ≤ 0 := by
  constructor
  · refine ⟨by rw [V_resin, V_solution]; ring, hc.le, le_refl 0, ?_⟩
    show (0 : ℚ) ≤ (p.qmax * p.c0) / (p.KL + p.c0)
    have hden : (0 : ℚ) ≤ p.KL + p.c0 := by linarith
    exact div_nonneg (mul_nonneg hq.le hc.le) hden
  · rintro ⟨C, q⟩ ⟨_, _, _, hle⟩
    have hdq : (0 : ℚ) ≤ p.k * (qeq p C - q) :=
      mul_nonneg hk.le (sub_nonneg.mpr hle)
    constructor
    · exact hdq
    · show - (V_resin / V_solution) * (p.k * ((p.qmax * C) / (p.KL + C) - q)) ≤ 0
      have hr : - (V_resin / V_solution) ≤ (0 : ℚ) := by
        rw [V_resin, V_solution]
        norm_num
      exact mul_nonpos_of_nonpos_of_nonneg hr hdq

/-- Witness for C7 at the default parameters. -/
theorem C7_witness :
    ((0 : ℚ) < 1 ∧ (0 : ℚ) < 10 ∧ (0 : ℚ) < 65 ∧ (0 : ℚ) < 20) ∧
    (reachable ⟨20, 1, 10, 65, 20⟩ (20, 0) ∧
    ∀ y : ℚ × ℚ, reachable ⟨20, 1, 10, 65, 20⟩ y →
      0 ≤ (langmuir_odes ⟨20, 1, 10, 65, 20⟩ 0 y).2 ∧
      (langmuir_odes ⟨20, 1, 10, 65, 20⟩ 0 y).1 ≤ 0) :=
  ⟨by norm_num,
    C7_monotone_derivatives ⟨20, 1, 10, 65, 20⟩ (by norm_num) (by norm_num)
      (by norm_num) (by norm_num)⟩

/-- C8: a state is stationary for `langmuir_odes` exactly when the
loading sits on the Langmuir equilibrium curve `q = qeq(C)` — a
condition not involving `k` — so for any two positive rate constants
the stationary sets coincide. -/
theorem C8_stationary_independent_of_k (p : Params) (k1 k2 : ℚ)
    (h1 : 0 < k1) (h2 : 0 < k2) (y : ℚ × ℚ) :
    (stationary { p with k := k1 } y ↔ y.2 = qeq p y.1) ∧
    (stationary { p with k := k1 } y ↔ stationary { p with k := k2 } y) := by
  have key : ∀ k' : ℚ, 0 < k' →
      (stationary { p with k := k' } y ↔ y.2 = qeq p y.1) := by
    intro k' hk'
    constructor
    · intro hst
      have hsnd := congrArg Prod.snd hst
      have hmul : k' * (qeq p y.1 - y.2) = 0 := hsnd
      rcases mul_eq_zero.mp hmul with h | h
      · exact absurd h (ne_of_gt hk')
      · linarith
    · intro hq2
      show (- (V_resin / V_solution) * (k' * (qeq p y.1 - y.2)),
        k' * (qeq p y.1 - y.2)) = (0, 0)
      rw [hq2, sub_self, mul_zero, mul_zero]
  exact ⟨key k1 h1, (key k1 h1).trans (key k2 h2).symm⟩

/-- Witness for C8 with the spec's rate pair `k = 0.2` versus `k = 2.0`
at the default remaining parameters and the initial state. -/
theorem C8_witness :
    ((0 : ℚ) < 0.2 ∧ (0 : ℚ) < 2) ∧
    ((stationary { c0 := 20, k := 0.2, KL := 10, qmax := 65, t_end := 20 } (20, 0) ↔
        (20, (0 : ℚ)).2 = qeq ⟨20, 1, 10, 65, 20⟩ (20, (0 : ℚ)).1) ∧
      (stationary { c0 := 20, k := 0.2, KL := 10, qmax := 65, t_end := 20 } (20, 0) ↔
        stationary { c0 := 20, k := 2, KL := 10, qmax := 65, t_end := 20 } (20, 0))) :=
  ⟨by norm_num,
    C8_stationary_independent_of_k ⟨20, 1, 10, 65, 20⟩ 0.2 2
      (by norm_num) (by norm_num) (20, 0)⟩

/-- C9 (variant B, modelled from the spec): the liquid-phase rate is
`−((1 − eps)/eps)` times the solid-phase rate at every state, and every
entry of the bound-mass column equals the corresponding sampled loading
times `(1 − eps)`. -/
theorem C9_ldf_mass_bound (p : ParamsB) (heps0 : 0 < p.eps) (heps1 : p.eps < 1)
    (t : ℚ) (y : ℚ × ℚ) (qs : List ℚ) :
    (ldf_odes p t y).1 = - ((1 - p.eps) / p.eps) * (ldf_odes p t y).2 ∧
    (massBoundSeries p qs).length = qs.length ∧
    ∀ (i : ℕ) (hi : i < qs.length) (hi' : i < (massBoundSeries p qs).length),
      (massBoundSeries p qs).get ⟨i, hi'⟩ = qs.get ⟨i, hi⟩ * (1 - p.eps) := by
  refine ⟨rfl, by rw [massBoundSeries, List.length_map], ?_⟩
  intro i hi hi'
  simp only [massBoundSeries, mass_bound, List.get_eq_getElem, List.getElem_map]

/-- Witness for C9 at the spec's Scenario 3 parameters and a concrete
two-sample loading column. -/
theorem C9_witness :
    ((0 : ℚ) < 0.4 ∧ (0.4 : ℚ) < 1) ∧
    ((ldf_odes ⟨20, 1, 0.15, 65, 0.4, 100⟩ 0 (20, 0)).1 =
        - ((1 - (0.4 : ℚ)) / 0.4) * (ldf_odes ⟨20, 1, 0.15, 65, 0.4, 100⟩ 0 (20, 0)).2 ∧
      (massBoundSeries ⟨20, 1, 0.15, 65, 0.4, 100⟩ [0, 10]).length = [0, (10 : ℚ)].length ∧
      ∀ (i : ℕ) (hi : i < [0, (10 : ℚ)].length)
        (hi' : i < (massBoundSeries ⟨20, 1, 0.15, 65, 0.4, 100⟩ [0, 10]).length),
        (massBoundSeries ⟨20, 1, 0.15, 65, 0.4, 100⟩ [0, 10]).get ⟨i, hi'⟩ =
          [0, (10 : ℚ)].get ⟨i, hi⟩ * (1 - (0.4 : ℚ))) :=
  ⟨by norm_num,
    C9_ldf_mass_bound ⟨20, 1, 0.15, 65, 0.4, 100⟩ (by norm_num) (by norm_num)
      0 (20, 0) [0, 10]⟩

end BatchAdsorption
